import Mathlib

/-!
Verification of the Keycloak user-service backend.

The development shallowly embeds the backend's token-validation middleware
(`backend/middleware/keycloak.js`), the user service layer
(`backend/service/userService.js`), the update validator
(`backend/validator/userValidator.js`), the user controllers
(`backend/controller/userController.js`) and the Mongoose user schema
(`backend/models/user.js`).  JavaScript string and number idioms
(`split(' ')`, `trim`, `includes`, `parseInt`, `||` on falsy values) are
modelled by explicit list-of-characters functions so that every definition
evaluates by kernel reduction.  The `jsonwebtoken` verification call is a
function parameter of the middleware, exactly as the middleware treats it
as a black box.  Mongoose behaviour that the code relies on is embedded
explicitly: `findOneAndUpdate` updates the first matching document, an
upsert inserts a document whose identity key comes from the query filter,
`$set` entries whose value is `undefined` are stripped, and the
`timestamps: true` schema option makes every update also stamp the
`updatedAt` field.
-/

/-! ## JavaScript string / number semantics helpers -/

/-- JS `String.prototype.split(sep)` for a one-character separator:
`"a  b".split(' ') = ["a","","b"]`, `"".split(' ') = [""]`. -/
def jsSplitChars (sep : Char) : List Char → List (List Char)
  | [] => [[]]
  | c :: cs =>
    match jsSplitChars sep cs with
    | [] => [[c]]
    | h :: t => if c = sep then [] :: h :: t else (c :: h) :: t

/-- JS `s.split(sep)` (single-character separator). -/
def jsSplit (sep : Char) (s : String) : List String :=
  (jsSplitChars sep s.data).map String.mk

/-- `pre` is a prefix of `s` (JS `s.startsWith(pre)`). -/
def strStartsWith (s pre : String) : Bool :=
  pre.data.isPrefixOf s.data

/-- JS `s.trim()`: strip whitespace at both ends. -/
def jsTrim (s : String) : String :=
  String.mk (((s.data.dropWhile Char.isWhitespace).reverse.dropWhile
    Char.isWhitespace).reverse)

/-- `pat` occurs as a contiguous substring of the character list. -/
def charsIncludes (pat : List Char) : List Char → Bool
  | [] => pat.isEmpty
  | c :: cs => pat.isPrefixOf (c :: cs) || charsIncludes pat cs

/-- JS `s.includes(pat)` (for the nonempty patterns the code uses). -/
def jsIncludes (s pat : String) : Bool :=
  charsIncludes pat.data s.data

/-- Truthiness of an optional string (JS: `undefined` and `""` are falsy). -/
def jsTruthy : Option String → Bool
  | none => false
  | some s => s != ""

/-- JS `a || b` on two possibly-undefined strings (`""` is falsy). -/
def jsOrStr : Option String → Option String → Option String
  | none, b => b
  | some s, b => if s = "" then b else some s

/-- JS `a || d` where `d` is a string default. -/
def jsOrStrD : Option String → String → String
  | none, d => d
  | some s, d => if s = "" then d else s

/-- Value of a decimal digit list, most significant first. -/
def digitsVal (l : List Char) : Nat :=
  l.foldl (fun acc c => acc * 10 + (c.toNat - 48)) 0

/-- Parse the leading decimal digits after an optional sign. -/
def jsParseDigits (sign : Int) (cs : List Char) : Option Int :=
  let digits := cs.takeWhile Char.isDigit
  if digits.isEmpty then none else some (sign * Int.ofNat (digitsVal digits))

/-- JS `parseInt(s)` restricted to base 10: trims, reads an optional sign and
the leading digit run, `NaN` (modelled as `none`) when no digit is found. -/
def jsParseIntStr (s : String) : Option Int :=
  match (jsTrim s).data with
  | [] => none
  | c :: cs =>
    if c = '-' then jsParseDigits (-1) cs
    else if c = '+' then jsParseDigits 1 cs
    else jsParseDigits 1 (c :: cs)

/-- `parseInt` applied to a possibly-absent query parameter. -/
def jsParseIntOpt : Option String → Option Int
  | none => none
  | some s => jsParseIntStr s

/-- JS `n || d` after `parseInt`: `NaN` and `0` are falsy. -/
def jsOrInt : Option Int → Int → Int
  | none, d => d
  | some 0, d => d
  | some n, _ => n

/-! ## Token verifier model (backend/middleware/keycloak.js) -/

/-- Options passed to `jwt.verify` by the middleware. -/
structure VerifyOptions where
  algorithms : List String
  issuer : String
  audience : Option String
deriving DecidableEq, Repr

/-- An error produced by `jwt.verify` (its `name` and `message`). -/
structure VerifyError where
  name : String
  message : String
deriving DecidableEq, Repr

/-- Decoded JWT claim set, with the claims the middleware reads. -/
structure JwtPayload where
  sub : String
  email : Option String
  preferred_username : Option String
  username : Option String
  given_name : Option String
  family_name : Option String
  email_verified : Bool
  realm_access : Option (List String)
  resource_access : List (String × List String)
deriving DecidableEq, Repr

/-- The identity context `attachUserInfo` stores on `req.user`. -/
structure ReqUser where
  keycloakId : String
  email : Option String
  username : Option String
  firstName : Option String
  lastName : Option String
  emailVerified : Bool
  roles : List String
  clientRoles : List String
  token : JwtPayload
deriving DecidableEq, Repr

/-- The environment variables the middleware reads. -/
structure Env where
  keycloakUrl : Option String
  keycloakRealm : Option String
  keycloakClientId : Option String
  jwtAlgorithm : Option String
deriving DecidableEq, Repr

/-- A JSON error envelope sent by the middleware (`success`, `message`,
and an optional `error` code field). -/
structure RespBody where
  success : Bool
  message : String
  error : Option String
deriving DecidableEq, Repr

/-- Outcome of running the middleware: either a response is sent, or
control passes to the next handler with `req.user` attached. -/
inductive MwResult where
  | respond (status : Nat) (body : RespBody)
  | next (user : ReqUser)
deriving DecidableEq, Repr

/-- The part of an Express request the middleware reads. -/
structure Request where
  authHeader : Option String
deriving DecidableEq, Repr

/-- Running a protected route: the middleware either responds itself or the
route handler computes the response from the attached identity context. -/
def routeResponse (mw : MwResult) (handler : ReqUser → Nat × RespBody) :
    Nat × RespBody :=
  match mw with
  | .respond s b => (s, b)
  | .next u => handler u

/-- `${KEYCLOAK_URL}` with JS template-literal interpolation of
`undefined`. -/
def envVal : Option String → String
  | none => "undefined"
  | some s => s

/-- The issuer URL built by the middleware. -/
def issuerOf (env : Env) : String :=
  envVal env.keycloakUrl ++ "/realms/" ++ envVal env.keycloakRealm

/-- The signing algorithm: `process.env.JWT_ALGORITHM || 'RS256'`. -/
def algOf (env : Env) : String :=
  jsOrStrD env.jwtAlgorithm "RS256"

/-- The middleware's configuration guard:
`!issuer || issuer.includes('undefined')`. -/
def configBad (env : Env) : Bool :=
  (issuerOf env == "") || jsIncludes (issuerOf env) "undefined"

/-- Verification options without audience enforcement. -/
def baseVerifyOpts (env : Env) : VerifyOptions :=
  { algorithms := [algOf env], issuer := issuerOf env, audience := none }

/-- The first-attempt options: audience is added only when
`KEYCLOAK_CLIENT_ID` is truthy. -/
def mkVerifyOpts (env : Env) : VerifyOptions :=
  if jsTruthy env.keycloakClientId then
    { baseVerifyOpts env with audience := env.keycloakClientId }
  else baseVerifyOpts env

/-- `handleVerificationError`: maps a `jwt.verify` error to the 401 JSON
body.  `TokenExpiredError`, `JsonWebTokenError` and `TokenNotBeforeError`
get fixed codes; any other error name leaks through as the code. -/
def handleVerificationError (err : VerifyError) : RespBody :=
  if err.name = "TokenExpiredError" then
    { success := false, message := "Token has expired",
      error := some "TOKEN_EXPIRED" }
  else if err.name = "JsonWebTokenError" then
    { success := false, message := "Invalid token",
      error := some "INVALID_TOKEN" }
  else if err.name = "TokenNotBeforeError" then
    { success := false, message := "Token not yet valid",
      error := some "TOKEN_NOT_YET_VALID" }
  else
    { success := false, message := "Token verification failed",
      error := some err.name }

/-- `attachUserInfo`: builds `req.user` from the decoded claims. -/
def attachUserInfo (expectedAudience : Option String) (decoded : JwtPayload) :
    ReqUser :=
  { keycloakId := decoded.sub
  , email := decoded.email
  , username := jsOrStr decoded.preferred_username decoded.username
  , firstName := decoded.given_name
  , lastName := decoded.family_name
  , emailVerified := decoded.email_verified
  , roles := decoded.realm_access.getD []
  , clientRoles :=
      (expectedAudience.bind (fun a => decoded.resource_access.lookup a)).getD []
  , token := decoded }

def noAuthHeaderBody : RespBody :=
  { success := false, message := "No authorization header provided",
    error := none }

def badPrefixBody : RespBody :=
  { success := false,
    message := "Authorization header must start with \"Bearer \"",
    error := none }

def badFormatBody : RespBody :=
  { success := false,
    message := "Invalid authorization header format. Expected: Bearer <token>",
    error := none }

def emptyTokenBody : RespBody :=
  { success := false, message := "Token is empty", error := none }

def configErrorBody : RespBody :=
  { success := false,
    message := "Server configuration error: KEYCLOAK_URL and KEYCLOAK_REALM must be set",
    error := none }

/-- `validateKeycloakToken`: header parsing, configuration guard, the
first verification attempt with audience enforcement, and the relaxed
retry without audience when the first attempt failed with an
audience-related message.  `verify token opts` stands for
`jwt.verify(token, getKey, opts, cb)`. -/
def validateKeycloakToken (env : Env)
    (verify : String → VerifyOptions → Except VerifyError JwtPayload)
    (req : Request) : MwResult :=
  match req.authHeader with
  | none => .respond 401 noAuthHeaderBody
  | some authHeader =>
    if strStartsWith authHeader "Bearer " then
      match jsSplit ' ' authHeader with
      | [_, rawTok] =>
        let token := jsTrim rawTok
        if token = "" then .respond 401 emptyTokenBody
        else if configBad env then .respond 500 configErrorBody
        else
          match verify token (mkVerifyOpts env) with
          | .ok decoded => .next (attachUserInfo env.keycloakClientId decoded)
          | .error e =>
            if (e.message != "") && jsIncludes e.message "audience" &&
                jsTruthy env.keycloakClientId then
              match verify token (baseVerifyOpts env) with
              | .ok d2 => .next (attachUserInfo env.keycloakClientId d2)
              | .error e2 => .respond 401 (handleVerificationError e2)
            else .respond 401 (handleVerificationError e)
      | _ => .respond 401 badFormatBody
    else .respond 401 badPrefixBody

/-! ## User data model (backend/models/user.js) -/

/-- A stored user document.  `id` models the Mongo `_id`; `createdAt` and
`updatedAt` come from the schema's `timestamps: true` option, which makes
every `findOneAndUpdate` also stamp `updatedAt`. -/
structure UserRecord where
  id : String
  keycloakId : String
  email : String
  username : String
  firstName : Option String
  lastName : Option String
  enabled : Bool
  emailVerified : Bool
  profilePicture : Option String
  phoneNumber : Option String
  lastLogin : Option Nat
  preferences : List (String × String)
  createdAt : Nat
  updatedAt : Nat
deriving DecidableEq, Repr

/-- The `userData` argument of `syncUserFromKeycloak`, as built by
`getCurrentUser` from `req.user` (fields may be absent). -/
structure SyncData where
  keycloakId : String
  email : Option String
  username : Option String
  firstName : Option String
  lastName : Option String
  emailVerified : Bool
  enabled : Option Bool
deriving DecidableEq, Repr

/-- Predicate used for `findOne`-style queries on the identity key. -/
def byKc (kc : String) (r : UserRecord) : Bool :=
  r.keycloakId == kc

/-- `findOneAndUpdate`: replace the first document matching `p` by its
image under `f`; all other documents are untouched. -/
def updateFirst (p : α → Bool) (f : α → α) : List α → List α
  | [] => []
  | x :: xs => if p x then f x :: xs else x :: updateFirst p f xs

/-- `User.findOne({ keycloakId })` over the store. -/
def recordFor (kc : String) (store : List UserRecord) : Option UserRecord :=
  store.find? (byKc kc)

/-- The identity keys of the store, in order. -/
def storeKeys (store : List UserRecord) : List String :=
  store.map (·.keycloakId)

/-- A `$set` entry whose value is `undefined` is stripped by Mongoose, so
the stored field keeps its old value. -/
def jsSetOpt (new old : Option String) : Option String :=
  match new with
  | some s => some s
  | none => old

/-- The `$set` document of `syncUserFromKeycloak` applied to an existing
record; `timestamps: true` also stamps `updatedAt`. -/
def syncSet (now : Nat) (d : SyncData) (r : UserRecord) : UserRecord :=
  { r with
    email := d.email.getD r.email
  , username := d.username.getD r.username
  , firstName := jsSetOpt d.firstName r.firstName
  , lastName := jsSetOpt d.lastName r.lastName
  , enabled := d.enabled != some false
  , emailVerified := d.emailVerified
  , lastLogin := some now
  , updatedAt := now }

/-- The document created by the upsert branch of `syncUserFromKeycloak`:
the identity key comes from the query filter, the other fields from the
`$set` document and the schema defaults (`setDefaultsOnInsert`). -/
def newRecord (now : Nat) (freshId : String) (d : SyncData) : UserRecord :=
  { id := freshId
  , keycloakId := d.keycloakId
  , email := d.email.getD ""
  , username := d.username.getD ""
  , firstName := d.firstName
  , lastName := d.lastName
  , enabled := d.enabled != some false
  , emailVerified := d.emailVerified
  , profilePicture := none
  , phoneNumber := none
  , lastLogin := some now
  , preferences := []
  , createdAt := now
  , updatedAt := now }

/-- `syncUserFromKeycloak`: atomic upsert keyed by `keycloakId`, returning
the new store and the document after the update (`new: true`). -/
def syncUserFromKeycloak (now : Nat) (freshId : String) (d : SyncData)
    (store : List UserRecord) : List UserRecord × UserRecord :=
  match store.find? (byKc d.keycloakId) with
  | some r => (updateFirst (byKc d.keycloakId) (syncSet now d) store, syncSet now d r)
  | none => (store ++ [newRecord now freshId d], newRecord now freshId d)

/-! ## Profile update (backend/service/userService.js, updateUserProfile) -/

/-- A JSON value submitted in an update body. -/
inductive JsValue where
  | str (s : String)
  | bool (b : Bool)
  | num (n : Nat)
  | prefs (m : List (String × String))
deriving DecidableEq, Repr

/-- A request body: field names with their submitted values. -/
abbrev UpdateBody := List (String × JsValue)

/-- The allow-list of `updateUserProfile`. -/
def allowedFields : List String :=
  ["firstName", "lastName", "phoneNumber", "profilePicture", "preferences"]

/-- `Object.keys(updateData).forEach(...)`: keep only allow-listed keys. -/
def filterAllowed (body : UpdateBody) : UpdateBody :=
  List.filter (fun kv => allowedFields.contains kv.1) body

/-- Mongoose cast to a `String` schema path: strings pass, numbers and
booleans are stringified, a plain object raises a `CastError`. -/
def castString : JsValue → Except String String
  | .str s => .ok s
  | .num n => .ok (toString n)
  | .bool b => .ok (if b then "true" else "false")
  | .prefs _ => .error "Cast to string failed"

/-- Mongoose cast to a `Boolean` schema path: booleans and the usual
truthy/falsy encodings pass, anything else raises a `CastError`. -/
def castBoolV : JsValue → Except String Bool
  | .bool b => .ok b
  | .str "true" => .ok true
  | .str "false" => .ok false
  | .num 1 => .ok true
  | .num 0 => .ok false
  | _ => .error "Cast to Boolean failed"

/-- Mongoose cast to a `Date` schema path (timestamps modelled as `Nat`):
a number passes, anything else raises a `CastError`. -/
def castDateV : JsValue → Except String Nat
  | .num n => .ok n
  | _ => .error "Cast to date failed"

/-- Mongoose cast to a `Map` schema path: an object passes, a primitive
raises a `CastError`. -/
def castMapV : JsValue → Except String (List (String × String))
  | .prefs m => .ok m
  | _ => .error "Cast to Map failed"

/-- `$set` of a single field through the Mongoose schema:
`findOneAndUpdate` casts each value to its schema path's type and throws
a `CastError` on a wrong-shaped value; a key outside the schema changes
nothing (strict mode). -/
def setField (r : UserRecord) (kv : String × JsValue) :
    Except String UserRecord :=
  match kv with
  | ("firstName", v) => (castString v).map (fun s => { r with firstName := some s })
  | ("lastName", v) => (castString v).map (fun s => { r with lastName := some s })
  | ("phoneNumber", v) => (castString v).map (fun s => { r with phoneNumber := some s })
  | ("profilePicture", v) => (castString v).map (fun s => { r with profilePicture := some s })
  | ("preferences", v) => (castMapV v).map (fun m => { r with preferences := m })
  | ("email", v) => (castString v).map (fun s => { r with email := s })
  | ("username", v) => (castString v).map (fun s => { r with username := s })
  | ("keycloakId", v) => (castString v).map (fun s => { r with keycloakId := s })
  | ("enabled", v) => (castBoolV v).map (fun b => { r with enabled := b })
  | ("emailVerified", v) => (castBoolV v).map (fun b => { r with emailVerified := b })
  | ("lastLogin", v) => (castDateV v).map (fun n => { r with lastLogin := some n })
  | _ => .ok r

/-- Apply a `$set` document field by field; the first `CastError` aborts
the whole update before anything is written. -/
def applyFields (r : UserRecord) : UpdateBody → Except String UserRecord
  | [] => .ok r
  | kv :: l =>
    match setField r kv with
    | .ok r' => applyFields r' l
    | .error m => .error m

/-- The document produced by `updateUserProfile`'s `findOneAndUpdate`
when every cast succeeds: only allow-listed submitted fields are written,
and `timestamps: true` stamps `updatedAt`. -/
def updSet (now : Nat) (body : UpdateBody) (r : UserRecord) :
    Except String UserRecord :=
  (applyFields r (filterAllowed body)).map (fun r' => { r' with updatedAt := now })

/-- `updateUserProfile` before its catch-block rewrapping: a `CastError`
thrown by `findOneAndUpdate` leaves the store unchanged and is caught by
the same catch block as the not-found error. -/
def updateUserProfileInner (now : Nat) (kc : String) (body : UpdateBody)
    (store : List UserRecord) : Except String (List UserRecord × UserRecord) :=
  match store.find? (byKc kc) with
  | none => .error "User not found"
  | some r =>
    match updSet now body r with
    | .error m => .error m
    | .ok r' => .ok (updateFirst (byKc kc) (fun _ => r') store, r')

/-- `updateUserProfile`: the catch block rewraps every error message as
`` `Failed to update user: ...` ``. -/
def updateUserProfile (now : Nat) (kc : String) (body : UpdateBody)
    (store : List UserRecord) : Except String (List UserRecord × UserRecord) :=
  match updateUserProfileInner now kc body store with
  | .ok v => .ok v
  | .error m => .error ("Failed to update user: " ++ m)

/-! ## Soft delete (backend/service/userService.js, deleteUser) -/

/-- The `$set` of `deleteUser` plus the automatic `updatedAt` stamp. -/
def deleteSet (now : Nat) (r : UserRecord) : UserRecord :=
  { r with enabled := false, updatedAt := now }

/-- `deleteUser` before its catch-block rewrapping. -/
def deleteUserInner (now : Nat) (kc : String) (store : List UserRecord) :
    Except String (List UserRecord × UserRecord) :=
  match store.find? (byKc kc) with
  | none => .error "User not found"
  | some r => .ok (updateFirst (byKc kc) (deleteSet now) store, deleteSet now r)

/-- `deleteUser`: soft delete; the catch block rewraps error messages as
`` `Failed to delete user: ...` ``. -/
def deleteUser (now : Nat) (kc : String) (store : List UserRecord) :
    Except String (List UserRecord × UserRecord) :=
  match deleteUserInner now kc store with
  | .ok v => .ok v
  | .error m => .error ("Failed to delete user: " ++ m)

/-! ## Lookup by id (backend/service/userService.js, getUserById) -/

def isHexChar (c : Char) : Bool :=
  c.isDigit || ('a' ≤ c && c ≤ 'f') || ('A' ≤ c && c ≤ 'F')

/-- `mongoose.Types.ObjectId.isValid`: a 24-character hex string, or any
12-character string. -/
def isValidObjectId (s : String) : Bool :=
  (s.data.length == 24 && s.data.all isHexChar) || s.data.length == 12

/-- `getUserById` before its catch-block rewrapping. -/
def getUserByIdInner (store : List UserRecord) (userId : String) :
    Except String UserRecord :=
  if isValidObjectId userId then
    match store.find? (fun r => r.id == userId) with
    | none => .error "User not found"
    | some u => .ok u
  else .error "Invalid user ID format"

/-- `getUserById`: the catch block rewraps every error message as
`` `Failed to get user: ...` ``, including its own thrown
`'User not found'`. -/
def getUserById (store : List UserRecord) (userId : String) :
    Except String UserRecord :=
  match getUserByIdInner store userId with
  | .ok u => .ok u
  | .error m => .error ("Failed to get user: " ++ m)

/-! ## Pagination (backend/service/userService.js, getAllUsers) -/

structure Pagination where
  page : Int
  limit : Int
  total : Nat
  pages : Int
deriving DecidableEq, Repr

structure ListResult where
  users : List UserRecord
  pagination : Pagination
deriving DecidableEq, Repr

/-- Insertion step for sorting by `createdAt` descending. -/
def insertByCreatedDesc (r : UserRecord) : List UserRecord → List UserRecord
  | [] => [r]
  | x :: xs =>
    if x.createdAt ≤ r.createdAt then r :: x :: xs
    else x :: insertByCreatedDesc r xs

/-- `.sort({ createdAt: -1 })`. -/
def sortByCreatedDesc (l : List UserRecord) : List UserRecord :=
  l.foldr insertByCreatedDesc []

/-- `Math.ceil(total / limit)` for the positive limits the code uses. -/
def ceilPages (total : Nat) (limit : Int) : Int :=
  if 0 < limit then (Int.ofNat total + limit - 1) / limit else 0

/-- `getAllUsers(page, limit)`: skip/limit over the sorted store, with the
pagination echo object. -/
def getAllUsers (store : List UserRecord) (page limit : Int) : ListResult :=
  let skip := (page - 1) * limit
  let users := ((sortByCreatedDesc store).drop skip.toNat).take limit.toNat
  { users := users
  , pagination :=
    { page := page, limit := limit, total := store.length
    , pages := ceilPages store.length limit } }

/-! ## Update validator (backend/validator/userValidator.js) -/

/-- `isLength({ min, max })` on a string value. -/
def isLen (lo hi : Nat) (s : String) : Bool :=
  lo ≤ s.data.length && s.data.length ≤ hi

/-- The `username` rule: length 3..30 and `/^[a-zA-Z0-9_]+$/`. -/
def usernameOk (s : String) : Bool :=
  isLen 3 30 s && s.data.all (fun c => c.isAlphanum || c == '_') &&
    s.data.length ≥ 1

/-- The `phoneNumber` rule: `/^\+?[1-9]\d{1,14}$/` (E.164). -/
def phoneOk (s : String) : Bool :=
  match (if strStartsWith s "+" then s.data.drop 1 else s.data) with
  | [] => false
  | c :: rest =>
    ('1' ≤ c && c ≤ '9') && rest.all Char.isDigit &&
      (1 ≤ rest.length && rest.length ≤ 14)

/-- An `optional()` string rule: absent passes, a present value must be a
string satisfying the check. -/
def checkStr (p : String → Bool) : Option JsValue → Bool
  | none => true
  | some (.str s) => p s
  | some _ => false

/-- `validateUpdateUser`: the express-validator chain of `PUT /me`.  The
third-party `isEmail` check is a parameter, like the library call it is. -/
def validateUpdateUser (isEmail : String → Bool) (b : UpdateBody) : Bool :=
  checkStr isEmail (List.lookup "email" b) &&
  checkStr usernameOk (List.lookup "username" b) &&
  checkStr (isLen 1 50) (List.lookup "firstName" b) &&
  checkStr (isLen 1 50) (List.lookup "lastName" b) &&
  checkStr phoneOk (List.lookup "phoneNumber" b) &&
  (match List.lookup "preferences" b with
   | none => true
   | some (.prefs _) => true
   | some _ => false)

/-! ## Controllers (backend/controller/userController.js) -/

/-- A controller's JSON response: status plus the envelope. -/
structure ApiResponse (α : Type) where
  status : Nat
  success : Bool
  message : String
  data : Option α
deriving DecidableEq, Repr

/-- The `userData` object `getCurrentUser` passes to the synchronizer
(note the hard-coded `enabled: true`). -/
def syncDataOfUser (u : ReqUser) : SyncData :=
  { keycloakId := u.keycloakId
  , email := u.email
  , username := u.username
  , firstName := u.firstName
  , lastName := u.lastName
  , emailVerified := u.emailVerified
  , enabled := some true }

/-- `getCurrentUser` (`GET /api/users/me`) for an authenticated request:
synchronizes and returns the merged record.  Returns the response and the
store after the synchronization write. -/
def getMeController (now : Nat) (freshId : String) (u : ReqUser)
    (store : List UserRecord) : ApiResponse UserRecord × List UserRecord :=
  let res := syncUserFromKeycloak now freshId (syncDataOfUser u) store
  ({ status := 200, success := true
   , message := "User profile retrieved successfully", data := some res.2 },
   res.1)

/-- `getUserById` controller (`GET /api/users/:id`): maps the service
error message to 404 only when it is exactly `'User not found'`. -/
def getUserByIdController (store : List UserRecord) (userId : String) :
    ApiResponse UserRecord :=
  match getUserById store userId with
  | .ok u =>
    { status := 200, success := true, message := "User retrieved successfully"
    , data := some u }
  | .error m =>
    { status := if m = "User not found" then 404 else 500, success := false
    , message := m, data := none }

/-- `getAllUsers` controller (`GET /api/users`): parses `page`/`limit`
with `parseInt(..) || default` and returns 200 with the listing. -/
def getAllUsersController (store : List UserRecord)
    (pageQ limitQ : Option String) : Nat × ListResult :=
  let page := jsOrInt (jsParseIntOpt pageQ) 1
  let limit := jsOrInt (jsParseIntOpt limitQ) 10
  (200, getAllUsers store page limit)

/-- `PUT /api/users/me` after authentication: the `validateUpdateUser`
chain, then the `updateCurrentUser` controller. -/
def putMeRoute (isEmail : String → Bool) (now : Nat) (kc : String)
    (body : UpdateBody) (store : List UserRecord) :
    ApiResponse UserRecord × List UserRecord :=
  if validateUpdateUser isEmail body then
    match updateUserProfile now kc body store with
    | .ok (store', u) =>
      ({ status := 200, success := true
       , message := "User profile updated successfully", data := some u },
       store')
    | .error m =>
      ({ status := if m = "User not found" then 404 else 500, success := false
       , message := m, data := none }, store)
  else
    ({ status := 400, success := false, message := "Validation failed"
     , data := none }, store)

/-- `deleteCurrentUser` controller (`DELETE /api/users/me`). -/
def deleteCurrentUserController (now : Nat) (kc : String)
    (store : List UserRecord) : ApiResponse Unit × List UserRecord :=
  match deleteUser now kc store with
  | .ok (store', _) =>
    ({ status := 200, success := true, message := "User deleted successfully"
     , data := none }, store')
  | .error m =>
    ({ status := if m = "User not found" then 404 else 500, success := false
     , message := m, data := none }, store)

/-! ## Field-frame predicates on stored records -/

/-- Equality of every field except `lastLogin` and `updatedAt`, the two
timestamps written by each synchronization. -/
def UserRecord.eqExceptStamps (a b : UserRecord) : Prop :=
  a.id = b.id ∧ a.keycloakId = b.keycloakId ∧ a.email = b.email ∧
  a.username = b.username ∧ a.firstName = b.firstName ∧
  a.lastName = b.lastName ∧ a.enabled = b.enabled ∧
  a.emailVerified = b.emailVerified ∧ a.profilePicture = b.profilePicture ∧
  a.phoneNumber = b.phoneNumber ∧ a.preferences = b.preferences ∧
  a.createdAt = b.createdAt

instance (a b : UserRecord) : Decidable (a.eqExceptStamps b) := by
  unfold UserRecord.eqExceptStamps; infer_instance

/-- Equality of every field except `lastLogin` (so `updatedAt` included):
the relation claimed by the idempotence property as stated. -/
def UserRecord.eqExceptLastLogin (a b : UserRecord) : Prop :=
  a.eqExceptStamps b ∧ a.updatedAt = b.updatedAt

instance (a b : UserRecord) : Decidable (a.eqExceptLastLogin b) := by
  unfold UserRecord.eqExceptLastLogin; infer_instance

/-- Equality of every field except `enabled`: the relation claimed by the
soft-delete property as stated. -/
def UserRecord.eqExceptEnabled (a b : UserRecord) : Prop :=
  a.id = b.id ∧ a.keycloakId = b.keycloakId ∧ a.email = b.email ∧
  a.username = b.username ∧ a.firstName = b.firstName ∧
  a.lastName = b.lastName ∧ a.emailVerified = b.emailVerified ∧
  a.profilePicture = b.profilePicture ∧ a.phoneNumber = b.phoneNumber ∧
  a.lastLogin = b.lastLogin ∧ a.preferences = b.preferences ∧
  a.createdAt = b.createdAt ∧ a.updatedAt = b.updatedAt

instance (a b : UserRecord) : Decidable (a.eqExceptEnabled b) := by
  unfold UserRecord.eqExceptEnabled; infer_instance

/-- Equality of every field except `enabled` and `updatedAt`: what the
soft delete actually preserves. -/
def UserRecord.eqExceptEnabledStamp (a b : UserRecord) : Prop :=
  a.id = b.id ∧ a.keycloakId = b.keycloakId ∧ a.email = b.email ∧
  a.username = b.username ∧ a.firstName = b.firstName ∧
  a.lastName = b.lastName ∧ a.emailVerified = b.emailVerified ∧
  a.profilePicture = b.profilePicture ∧ a.phoneNumber = b.phoneNumber ∧
  a.lastLogin = b.lastLogin ∧ a.preferences = b.preferences ∧
  a.createdAt = b.createdAt

instance (a b : UserRecord) : Decidable (a.eqExceptEnabledStamp b) := by
  unfold UserRecord.eqExceptEnabledStamp; infer_instance

/-- Equality of the fields outside the profile-update allow-list (and
outside the automatic `updatedAt` stamp). -/
def UserRecord.lockedFieldsEq (a b : UserRecord) : Prop :=
  a.id = b.id ∧ a.keycloakId = b.keycloakId ∧ a.email = b.email ∧
  a.username = b.username ∧ a.enabled = b.enabled ∧
  a.emailVerified = b.emailVerified ∧ a.lastLogin = b.lastLogin ∧
  a.createdAt = b.createdAt

instance (a b : UserRecord) : Decidable (a.lockedFieldsEq b) := by
  unfold UserRecord.lockedFieldsEq; infer_instance

/-! ## Helper lemmas -/

theorem updateFirst_find {α : Type} (p : α → Bool) (f : α → α)
    (hf : ∀ a, p a = true → p (f a) = true) :
    ∀ l : List α, (updateFirst p f l).find? p = (l.find? p).map f := by
  intro l
  induction l with
  | nil => rfl
  | cons x xs ih =>
    by_cases hp : p x = true
    · simp [updateFirst, hp, List.find?_cons_of_pos, hf x hp]
    · have hp' : p x = false := by
        cases h : p x
        · rfl
        · exact absurd h hp
      simp [updateFirst, hp', List.find?_cons_of_neg, ih]

theorem mem_updateFirst_of_neg {α : Type} (p : α → Bool) (f : α → α)
    {a : α} : ∀ {l : List α}, a ∈ l → p a = false →
    a ∈ updateFirst p f l := by
  intro l
  induction l with
  | nil => intro h; exact absurd h (List.not_mem_nil a)
  | cons x xs ih =>
    intro hmem ha
    rcases List.mem_cons.mp hmem with rfl | hx
    · simp [updateFirst, ha]
    · by_cases hp : p x = true
      · simp [updateFirst, hp]
        exact Or.inr hx
      · have hp' : p x = false := by
          cases h : p x
          · rfl
          · exact absurd h hp
        simp [updateFirst, hp']
        exact Or.inr (ih hx ha)

theorem map_updateFirst {α β : Type} (p : α → Bool) (f : α → α) (g : α → β)
    (hg : ∀ a, p a = true → g (f a) = g a) :
    ∀ l : List α, (updateFirst p f l).map g = l.map g := by
  intro l
  induction l with
  | nil => rfl
  | cons x xs ih =>
    by_cases hp : p x = true
    · simp [updateFirst, hp, hg x hp]
    · have hp' : p x = false := by
        cases h : p x
        · rfl
        · exact absurd h hp
      simp [updateFirst, hp', ih]

theorem length_updateFirst {α : Type} (p : α → Bool) (f : α → α) :
    ∀ l : List α, (updateFirst p f l).length = l.length := by
  intro l
  induction l with
  | nil => rfl
  | cons x xs ih =>
    by_cases hp : p x = true
    · simp [updateFirst, hp]
    · have hp' : p x = false := by
        cases h : p x
        · rfl
        · exact absurd h hp
      simp [updateFirst, hp', ih]

theorem find?_append_right {α : Type} (p : α → Bool) {l : List α}
    (h : l.find? p = none) (m : List α) : (l ++ m).find? p = m.find? p := by
  induction l with
  | nil => rfl
  | cons x xs ih =>
    rw [List.find?_cons] at h
    cases hp : p x with
    | true => rw [hp] at h; exact absurd h (by simp)
    | false =>
      rw [hp] at h
      rw [List.cons_append, List.find?_cons, hp]
      exact ih h

theorem getD_idem {α : Type} (o : Option α) (x : α) :
    o.getD (o.getD x) = o.getD x := by
  cases o <;> rfl

theorem jsSetOpt_idem (o x : Option String) :
    jsSetOpt o (jsSetOpt o x) = jsSetOpt o x := by
  cases o <;> rfl

theorem eqExceptStamps_refl (r : UserRecord) : r.eqExceptStamps r := by
  unfold UserRecord.eqExceptStamps
  exact ⟨rfl, rfl, rfl, rfl, rfl, rfl, rfl, rfl, rfl, rfl, rfl, rfl⟩

theorem eqExceptStamps_trans {a b c : UserRecord}
    (hab : a.eqExceptStamps b) (hbc : b.eqExceptStamps c) :
    a.eqExceptStamps c := by
  obtain ⟨h1, h2, h3, h4, h5, h6, h7, h8, h9, h10, h11, h12⟩ := hab
  obtain ⟨g1, g2, g3, g4, g5, g6, g7, g8, g9, g10, g11, g12⟩ := hbc
  exact ⟨h1.trans g1, h2.trans g2, h3.trans g3, h4.trans g4, h5.trans g5,
    h6.trans g6, h7.trans g7, h8.trans g8, h9.trans g9, h10.trans g10,
    h11.trans g11, h12.trans g12⟩

/-- A record already carrying the provider-sourced values of `d`: another
synchronization with the same `d` changes only the two timestamps. -/
def stableFor (d : SyncData) (r : UserRecord) : Prop :=
  ∀ t, (syncSet t d r).eqExceptStamps r

theorem stableFor_syncSet (t : Nat) (d : SyncData) (r : UserRecord) :
    stableFor d (syncSet t d r) := by
  intro t'
  unfold UserRecord.eqExceptStamps
  refine ⟨rfl, rfl, ?_, ?_, ?_, ?_, rfl, rfl, rfl, rfl, rfl, rfl⟩ <;>
    simp [syncSet, getD_idem, jsSetOpt_idem]

theorem stableFor_newRecord (t : Nat) (fid : String) (d : SyncData) :
    stableFor d (newRecord t fid d) := by
  intro t'
  unfold UserRecord.eqExceptStamps
  refine ⟨rfl, rfl, ?_, ?_, ?_, ?_, rfl, rfl, rfl, rfl, rfl, rfl⟩ <;>
    simp [syncSet, newRecord, getD_idem, jsSetOpt_idem] <;>
    cases d.firstName <;> cases d.lastName <;> simp [jsSetOpt]

theorem syncSet_keycloakId (t : Nat) (d : SyncData) (r : UserRecord) :
    (syncSet t d r).keycloakId = r.keycloakId := rfl

theorem byKc_syncSet (kc : String) (t : Nat) (d : SyncData) (r : UserRecord)
    (h : byKc kc r = true) : byKc kc (syncSet t d r) = true := h

theorem recordFor_sync_found (now : Nat) (fid : String) (d : SyncData)
    (store : List UserRecord) (r : UserRecord)
    (h : store.find? (byKc d.keycloakId) = some r) :
    recordFor d.keycloakId (syncUserFromKeycloak now fid d store).1 =
      some (syncSet now d r) := by
  unfold syncUserFromKeycloak recordFor
  rw [h]
  simp only
  rw [updateFirst_find (byKc d.keycloakId) (syncSet now d)
    (fun a ha => byKc_syncSet _ now d a ha), h]
  rfl

theorem recordFor_sync_absent (now : Nat) (fid : String) (d : SyncData)
    (store : List UserRecord)
    (h : store.find? (byKc d.keycloakId) = none) :
    recordFor d.keycloakId (syncUserFromKeycloak now fid d store).1 =
      some (newRecord now fid d) := by
  unfold syncUserFromKeycloak recordFor
  rw [h]
  simp only
  rw [find?_append_right (byKc d.keycloakId) h]
  simp [List.find?, byKc, newRecord]

theorem sync_fold_keeps (d : SyncData) (fid : String) (ts : List Nat) :
    ∀ (s : List UserRecord) (r : UserRecord),
    recordFor d.keycloakId s = some r → stableFor d r →
    ∃ r', recordFor d.keycloakId
        (ts.foldl (fun acc t' => (syncUserFromKeycloak t' fid d acc).1) s)
        = some r' ∧ r'.eqExceptStamps r ∧ stableFor d r' := by
  induction ts with
  | nil => intro s r hr hs; exact ⟨r, hr, eqExceptStamps_refl r, hs⟩
  | cons t' ts' ih =>
    intro s r hr hs
    have h1 : recordFor d.keycloakId (syncUserFromKeycloak t' fid d s).1 =
        some (syncSet t' d r) :=
      recordFor_sync_found t' fid d s r hr
    obtain ⟨r', h2, h3, h4⟩ :=
      ih (syncUserFromKeycloak t' fid d s).1 (syncSet t' d r) h1
        (stableFor_syncSet t' d r)
    exact ⟨r', h2, eqExceptStamps_trans h3 (hs t'), h4⟩

theorem lockedFieldsEq_refl (r : UserRecord) : r.lockedFieldsEq r := by
  unfold UserRecord.lockedFieldsEq
  exact ⟨rfl, rfl, rfl, rfl, rfl, rfl, rfl, rfl⟩

theorem lockedFieldsEq_trans {a b c : UserRecord}
    (hab : a.lockedFieldsEq b) (hbc : b.lockedFieldsEq c) :
    a.lockedFieldsEq c := by
  obtain ⟨h1, h2, h3, h4, h5, h6, h7, h8⟩ := hab
  obtain ⟨g1, g2, g3, g4, g5, g6, g7, g8⟩ := hbc
  exact ⟨h1.trans g1, h2.trans g2, h3.trans g3, h4.trans g4, h5.trans g5,
    h6.trans g6, h7.trans g7, h8.trans g8⟩

theorem contains_allowed {k : String}
    (h : allowedFields.contains k = true) : k ∈ allowedFields := by
  simpa using h

set_option maxHeartbeats 1000000 in
theorem setField_locked (r : UserRecord) (kv : String × JsValue)
    (h : kv.1 ∈ allowedFields) {r' : UserRecord}
    (hok : setField r kv = .ok r') : r'.lockedFieldsEq r := by
  obtain ⟨k, v⟩ := kv
  simp only [allowedFields, List.mem_cons, List.not_mem_nil, or_false] at h
  unfold UserRecord.lockedFieldsEq
  rcases h with rfl | rfl | rfl | rfl | rfl <;> cases v <;> cases hok <;>
    exact ⟨rfl, rfl, rfl, rfl, rfl, rfl, rfl, rfl⟩

theorem applyFields_locked (l : UpdateBody) :
    ∀ (r r' : UserRecord), (∀ kv ∈ l, kv.1 ∈ allowedFields) →
    applyFields r l = .ok r' → r'.lockedFieldsEq r := by
  induction l with
  | nil =>
    intro r r' _ hok
    cases hok
    exact lockedFieldsEq_refl r
  | cons kv l' ih =>
    intro r r' hl hok
    unfold applyFields at hok
    rcases hs : setField r kv with _ | r1
    · rw [hs] at hok; cases hok
    · rw [hs] at hok
      have step : r1.lockedFieldsEq r :=
        setField_locked r kv (hl kv (List.mem_cons_self kv l')) hs
      have rest : r'.lockedFieldsEq r1 :=
        ih r1 r' (fun x hx => hl x (List.mem_cons_of_mem kv hx)) hok
      exact lockedFieldsEq_trans rest step

theorem filterAllowed_mem {body : UpdateBody} {kv : String × JsValue}
    (h : kv ∈ filterAllowed body) : kv.1 ∈ allowedFields := by
  unfold filterAllowed at h
  exact contains_allowed (List.mem_filter.mp h).2

theorem updSet_locked (now : Nat) (body : UpdateBody) (r r' : UserRecord)
    (hok : updSet now body r = .ok r') : r'.lockedFieldsEq r := by
  unfold updSet at hok
  rcases ha : applyFields r (filterAllowed body) with _ | r1
  · rw [ha] at hok; cases hok
  · rw [ha] at hok
    cases hok
    have h := applyFields_locked (filterAllowed body) r r1
      (fun kv hkv => filterAllowed_mem hkv) ha
    obtain ⟨h1, h2, h3, h4, h5, h6, h7, h8⟩ := h
    exact ⟨h1, h2, h3, h4, h5, h6, h7, h8⟩

theorem updSet_keycloakId (now : Nat) (body : UpdateBody) (r r' : UserRecord)
    (hok : updSet now body r = .ok r') : r'.keycloakId = r.keycloakId :=
  (updSet_locked now body r r' hok).2.1

theorem updSet_updatedAt (now : Nat) (body : UpdateBody) (r r' : UserRecord)
    (hok : updSet now body r = .ok r') : r'.updatedAt = now := by
  unfold updSet at hok
  rcases ha : applyFields r (filterAllowed body) with _ | r1
  · rw [ha] at hok; cases hok
  · rw [ha] at hok
    cases hok
    rfl

theorem updateUserProfileInner_found (now : Nat) (kc : String)
    (body : UpdateBody) (store : List UserRecord) (r : UserRecord)
    (hr : store.find? (byKc kc) = some r) :
    updateUserProfileInner now kc body store =
      (match updSet now body r with
       | .error m => .error m
       | .ok r' => .ok (updateFirst (byKc kc) (fun _ => r') store, r')) := by
  unfold updateUserProfileInner
  rw [hr]

theorem updateUserProfileInner_notFound (now : Nat) (kc : String)
    (body : UpdateBody) (store : List UserRecord)
    (hr : store.find? (byKc kc) = none) :
    updateUserProfileInner now kc body store = .error "User not found" := by
  unfold updateUserProfileInner
  rw [hr]

/-! ## Demo values used by witnesses -/

def envW : Env :=
  { keycloakUrl := some "http://kc:8080"
  , keycloakRealm := some "demo"
  , keycloakClientId := some "client-app"
  , jwtAlgorithm := none }

def payloadW : JwtPayload :=
  { sub := "sub-1"
  , email := some "alice@example.com"
  , preferred_username := some "alice"
  , username := none
  , given_name := some "Alice"
  , family_name := some "Doe"
  , email_verified := true
  , realm_access := some ["user"]
  , resource_access := [("client-app", ["admin"])] }

def audErrW : VerifyError :=
  { name := "JsonWebTokenError"
  , message := "jwt audience invalid. expected: client-app" }

/-- A verifier for which audience-enforced validation fails with an
audience error while relaxed validation succeeds. -/
def verifyW : String → VerifyOptions → Except VerifyError JwtPayload :=
  fun _ opts =>
    match opts.audience with
    | some _ => .error audErrW
    | none => .ok payloadW

def reqW : Request := { authHeader := some "Bearer tok123" }

def demoHandler : ReqUser → Nat × RespBody :=
  fun _ => (200, { success := true, message := "ok", error := none })

/-! ## C1: relaxed-audience fallback -/

/-- C1: for every token whose first verification attempt (with audience
enforcement) fails with an audience-related error while verification
without audience enforcement succeeds — i.e. signature and issuer are
valid but the `aud` claim does not match the configured client id — the
middleware retries without audience enforcement and passes control to the
route handler with the identity context fully populated from the decoded
claims, instead of rejecting the request. -/
theorem c1_relaxed_audience_fallback (env : Env)
    (verify : String → VerifyOptions → Except VerifyError JwtPayload)
    (req : Request) (h rawTok : String) (e : VerifyError) (d : JwtPayload)
    (handler : ReqUser → Nat × RespBody)
    (hh : req.authHeader = some h)
    (hpre : strStartsWith h "Bearer " = true)
    (hsplit : jsSplit ' ' h = ["Bearer", rawTok])
    (htok : jsTrim rawTok ≠ "")
    (hcfg : configBad env = false)
    (haud : jsTruthy env.keycloakClientId = true)
    (h1 : verify (jsTrim rawTok) (mkVerifyOpts env) = .error e)
    (hmsg1 : e.message ≠ "")
    (hmsg2 : jsIncludes e.message "audience" = true)
    (h2 : verify (jsTrim rawTok) (baseVerifyOpts env) = .ok d) :
    validateKeycloakToken env verify req =
      .next (attachUserInfo env.keycloakClientId d) ∧
    routeResponse (validateKeycloakToken env verify req) handler =
      handler (attachUserInfo env.keycloakClientId d) := by
  have hb : (e.message != "") = true := by
    simp [bne_iff_ne, hmsg1]
  have hmain : validateKeycloakToken env verify req =
      .next (attachUserInfo env.keycloakClientId d) := by
    unfold validateKeycloakToken
    rw [hh]
    simp only [hpre, if_true, hsplit]
    simp [htok, hcfg, h1, h2, hb, hmsg2, haud]
  exact ⟨hmain, by rw [hmain]; rfl⟩

/-- Witness for C1 at a concrete environment, verifier and request. -/
theorem c1_relaxed_audience_fallback_witness :
    validateKeycloakToken envW verifyW reqW =
      MwResult.next (attachUserInfo envW.keycloakClientId payloadW) :=
  (c1_relaxed_audience_fallback envW verifyW reqW "Bearer tok123" "tok123"
    audErrW payloadW demoHandler rfl (by decide) (by decide) (by decide)
    (by decide) (by decide) rfl (by decide) (by decide) rfl).1

/-! ## C5: bearer-credential extraction failures -/

/-- The authorization header is exactly of the form `Bearer <token>` with a
nonempty token: the only shape the middleware accepts. -/
def wellFormedBearer (h : String) : Bool :=
  strStartsWith h "Bearer " &&
  (match jsSplit ' ' h with
   | [_, t] => !(jsTrim t == "")
   | _ => false)

/-- C5: a request without an authorization header is rejected 401 with the
missing-credential body; a header with the wrong prefix, the wrong number
of space-separated parts, or an empty token is rejected 401 with the
corresponding malformed-credential body; and in every such failure case
the middleware responds itself, so no route handler ever runs. -/
theorem c5_header_rejection (env : Env)
    (verify : String → VerifyOptions → Except VerifyError JwtPayload)
    (req : Request) (handler : ReqUser → Nat × RespBody) :
    (req.authHeader = none →
      routeResponse (validateKeycloakToken env verify req) handler =
        (401, noAuthHeaderBody)) ∧
    (∀ h, req.authHeader = some h → strStartsWith h "Bearer " = false →
      routeResponse (validateKeycloakToken env verify req) handler =
        (401, badPrefixBody)) ∧
    (∀ h, req.authHeader = some h → strStartsWith h "Bearer " = true →
      (jsSplit ' ' h).length ≠ 2 →
      routeResponse (validateKeycloakToken env verify req) handler =
        (401, badFormatBody)) ∧
    (∀ h a t, req.authHeader = some h → strStartsWith h "Bearer " = true →
      jsSplit ' ' h = [a, t] → jsTrim t = "" →
      routeResponse (validateKeycloakToken env verify req) handler =
        (401, emptyTokenBody)) ∧
    (∀ u, (req.authHeader = none ∨
        ∃ h, req.authHeader = some h ∧ wellFormedBearer h = false) →
      validateKeycloakToken env verify req ≠ MwResult.next u) := by
  refine ⟨?_, ?_, ?_, ?_, ?_⟩
  · intro hnone
    unfold validateKeycloakToken
    rw [hnone]
    rfl
  · intro h hh hpre
    unfold validateKeycloakToken
    rw [hh]
    simp [hpre, routeResponse]
  · intro h hh hpre hlen
    unfold validateKeycloakToken
    rw [hh]
    simp only [hpre, if_true]
    rcases hsp : jsSplit ' ' h with _ | ⟨a, _ | ⟨b, _ | ⟨c, rest⟩⟩⟩
    · rfl
    · rfl
    · rw [hsp] at hlen; exact absurd rfl hlen
    · rfl
  · intro h a t hh hpre hsp htr
    unfold validateKeycloakToken
    rw [hh]
    simp only [hpre, if_true, hsp]
    simp [htr, routeResponse]
  · intro u hcase
    rcases hcase with hnone | ⟨h, hh, hbad⟩
    · unfold validateKeycloakToken
      rw [hnone]
      exact fun hc => MwResult.noConfusion hc
    · unfold validateKeycloakToken
      rw [hh]
      unfold wellFormedBearer at hbad
      cases hb : strStartsWith h "Bearer " with
      | false => simp [hb]
      | true =>
        rw [hb] at hbad
        simp only [Bool.true_and] at hbad
        simp only [hb, if_true]
        rcases hsp : jsSplit ' ' h with _ | ⟨a, _ | ⟨b, _ | ⟨c, rest⟩⟩⟩
        · simp
        · simp
        · rw [hsp] at hbad
          have htr : jsTrim b = "" := by simpa using hbad
          simp [htr]
        · simp

/-- Witness for C5: a request with no header and one with a wrong prefix,
each rejected with the corresponding body. -/
theorem c5_header_rejection_witness :
    routeResponse
      (validateKeycloakToken envW verifyW { authHeader := none }) demoHandler
        = (401, noAuthHeaderBody) ∧
    routeResponse
      (validateKeycloakToken envW verifyW { authHeader := some "Token abc" })
        demoHandler = (401, badPrefixBody) ∧
    routeResponse
      (validateKeycloakToken envW verifyW { authHeader := some "Bearer a b" })
        demoHandler = (401, badFormatBody) ∧
    routeResponse
      (validateKeycloakToken envW verifyW { authHeader := some "Bearer  " })
        demoHandler = (401, badFormatBody) :=
  ⟨(c5_header_rejection envW verifyW { authHeader := none } demoHandler).1 rfl,
   (c5_header_rejection envW verifyW { authHeader := some "Token abc" }
     demoHandler).2.1 "Token abc" rfl (by decide),
   (c5_header_rejection envW verifyW { authHeader := some "Bearer a b" }
     demoHandler).2.2.1 "Bearer a b" rfl (by decide) (by decide),
   (c5_header_rejection envW verifyW { authHeader := some "Bearer  " }
     demoHandler).2.2.1 "Bearer  " rfl (by decide) (by decide)⟩

/-! ## C3: failure taxonomy and error codes -/

/-- Counterexample for C3: `jsonwebtoken` reports both a malformed token
(`'jwt malformed'`) and a tampered or wrongly-signed token
(`'invalid signature'` / `'invalid algorithm'`) with the same error name
`JsonWebTokenError`, and `handleVerificationError` maps that name to the
single code `INVALID_TOKEN`; the malformed and signature-invalid classes
therefore do not receive distinct caller-visible error codes, and there is
no dedicated signature-invalid code. -/
theorem c3_counterexample_shared_invalid_token_code :
    (handleVerificationError
      { name := "JsonWebTokenError", message := "jwt malformed" }).error
      = some "INVALID_TOKEN" ∧
    (handleVerificationError
      { name := "JsonWebTokenError", message := "invalid signature" }).error
      = some "INVALID_TOKEN" ∧
    (handleVerificationError
      { name := "JsonWebTokenError", message := "invalid algorithm" }).error
      = some "INVALID_TOKEN" := by
  exact ⟨rfl, rfl, rfl⟩

/-- C3 (amended): expired and not-yet-valid tokens map to the distinct
codes `TOKEN_EXPIRED` and `TOKEN_NOT_YET_VALID`, while the malformed and
signature-invalid classes share the code `INVALID_TOKEN`; a configuration
error is a 500 response whose body carries no error code (distinct from
all the 401 outcomes by its status).  In particular, for every token
failing verification with a tampered signature or an algorithm mismatch —
a `JsonWebTokenError` whose message (`'invalid signature'`,
`'invalid algorithm'`, ...) is not audience-related, so the relaxed retry
does not fire — every protected route responds 401 with code
`INVALID_TOKEN`. -/
theorem c3_amended_error_code_taxonomy (env : Env)
    (verify : String → VerifyOptions → Except VerifyError JwtPayload)
    (req : Request) (h rawTok msg : String)
    (handler : ReqUser → Nat × RespBody)
    (hh : req.authHeader = some h)
    (hpre : strStartsWith h "Bearer " = true)
    (hsplit : jsSplit ' ' h = ["Bearer", rawTok])
    (htok : jsTrim rawTok ≠ "") :
    (configBad env = false →
      verify (jsTrim rawTok) (mkVerifyOpts env) =
        .error { name := "JsonWebTokenError", message := msg } →
      jsIncludes msg "audience" = false →
      routeResponse (validateKeycloakToken env verify req) handler =
        (401, { success := false, message := "Invalid token",
                error := some "INVALID_TOKEN" })) ∧
    (configBad env = true →
      routeResponse (validateKeycloakToken env verify req) handler =
        (500, configErrorBody) ∧ configErrorBody.error = none) ∧
    (∀ m, (handleVerificationError
      { name := "TokenExpiredError", message := m }).error
        = some "TOKEN_EXPIRED") ∧
    (∀ m, (handleVerificationError
      { name := "TokenNotBeforeError", message := m }).error
        = some "TOKEN_NOT_YET_VALID") ∧
    (∀ m, (handleVerificationError
      { name := "JsonWebTokenError", message := m }).error
        = some "INVALID_TOKEN") ∧
    (some "TOKEN_EXPIRED" ≠ some "TOKEN_NOT_YET_VALID" ∧
     some "TOKEN_EXPIRED" ≠ some "INVALID_TOKEN" ∧
     some "TOKEN_NOT_YET_VALID" ≠ some "INVALID_TOKEN") := by
  refine ⟨?_, ?_, fun m => rfl, fun m => rfl, fun m => rfl,
    by decide, by decide, by decide⟩
  · intro hcfg hsig hnoaud
    unfold validateKeycloakToken
    rw [hh]
    simp only [hpre, if_true, hsplit]
    simp [htok, hcfg, hsig, hnoaud, routeResponse, handleVerificationError]
  · intro hcfg
    refine ⟨?_, rfl⟩
    unfold validateKeycloakToken
    rw [hh]
    simp only [hpre, if_true, hsplit]
    simp [htok, hcfg, routeResponse]

/-- An environment with `KEYCLOAK_URL` unset, so the issuer string
interpolates `undefined` and the configuration guard fires. -/
def envBadW : Env :=
  { keycloakUrl := none
  , keycloakRealm := some "demo"
  , keycloakClientId := some "client-app"
  , jwtAlgorithm := none }

/-- Witness for C3 (amended): a tampered-signature verifier, an
algorithm-mismatch verifier, and a misconfigured environment, each at a
concrete request. -/
theorem c3_amended_error_code_taxonomy_witness :
    routeResponse
      (validateKeycloakToken envW
        (fun _ _ => .error
          { name := "JsonWebTokenError", message := "invalid signature" })
        reqW) demoHandler =
      (401, { success := false, message := "Invalid token",
              error := some "INVALID_TOKEN" }) ∧
    routeResponse
      (validateKeycloakToken envW
        (fun _ _ => .error
          { name := "JsonWebTokenError", message := "invalid algorithm" })
        reqW) demoHandler =
      (401, { success := false, message := "Invalid token",
              error := some "INVALID_TOKEN" }) ∧
    routeResponse (validateKeycloakToken envBadW verifyW reqW) demoHandler =
      (500, configErrorBody) :=
  ⟨(c3_amended_error_code_taxonomy envW
      (fun _ _ => .error
        { name := "JsonWebTokenError", message := "invalid signature" })
      reqW "Bearer tok123" "tok123" "invalid signature" demoHandler rfl
      (by decide) (by decide) (by decide)).1 (by decide) rfl (by decide),
   (c3_amended_error_code_taxonomy envW
      (fun _ _ => .error
        { name := "JsonWebTokenError", message := "invalid algorithm" })
      reqW "Bearer tok123" "tok123" "invalid algorithm" demoHandler rfl
      (by decide) (by decide) (by decide)).1 (by decide) rfl (by decide),
   ((c3_amended_error_code_taxonomy envBadW verifyW reqW "Bearer tok123"
      "tok123" "unused" demoHandler rfl (by decide) (by decide)
      (by decide)).2.1 (by decide)).1⟩

/-! ## C2: GET /api/users/:id status codes -/

/-- A stored record with a valid 24-hex-character Mongo id. -/
def c2Rec : UserRecord :=
  { id := "aaaaaaaaaaaaaaaaaaaaaaaa"
  , keycloakId := "kc-c2"
  , email := "c2@example.com"
  , username := "c2user"
  , firstName := none
  , lastName := none
  , enabled := true
  , emailVerified := false
  , profilePicture := none
  , phoneNumber := none
  , lastLogin := none
  , preferences := []
  , createdAt := 0
  , updatedAt := 0 }

/-- C2 is a code bug: the `getUserById` service rewraps its own
`'User not found'` error as `'Failed to get user: User not found'`, so
the controller's `error.message === 'User not found' ? 404 : 500` check
never fires and a missing (or invalid) id yields 500, not the 404 the
controller's own branch and the spec intend.  An existing record is
returned with 200 as claimed. -/
theorem c2_missing_user_returns_500_not_404 :
    (getUserByIdController [c2Rec] "bbbbbbbbbbbbbbbbbbbbbbbb").status = 500 ∧
    (getUserByIdController [c2Rec] "bbbbbbbbbbbbbbbbbbbbbbbb").message =
      "Failed to get user: User not found" ∧
    (getUserByIdController [c2Rec] "not-a-valid-id").status = 500 ∧
    (getUserByIdController [c2Rec] "not-a-valid-id").message =
      "Failed to get user: Invalid user ID format" ∧
    (getUserByIdController [c2Rec] "aaaaaaaaaaaaaaaaaaaaaaaa").status = 200 ∧
    (getUserByIdController [c2Rec] "aaaaaaaaaaaaaaaaaaaaaaaa").data =
      some c2Rec := by
  refine ⟨?_, ?_, ?_, ?_, ?_, ?_⟩ <;> decide

/-! ## C4: pagination defaults and the missing limit cap -/

/-- A minimal record used to populate the pagination counterexample. -/
def c4Rec (i : Nat) : UserRecord :=
  { id := toString i
  , keycloakId := toString i
  , email := ""
  , username := ""
  , firstName := none
  , lastName := none
  , enabled := true
  , emailVerified := false
  , profilePicture := none
  , phoneNumber := none
  , lastLogin := none
  , preferences := []
  , createdAt := 0
  , updatedAt := 0 }

def c4Store : List UserRecord := (List.range 101).map c4Rec

/-- Counterexample for C4: `GET /api/users?limit=101` is honoured, not
clamped or rejected — the route attaches no query validator (the max-100
rule lives in an unused validator that reads the request body), so with
101 stored records all 101 are returned with status 200 and the effective
limit echoed as 101. -/
theorem c4_counterexample_limit_101_honoured :
    (getAllUsersController c4Store none (some "101")).1 = 200 ∧
    (getAllUsersController c4Store none (some "101")).2.pagination.limit
      = 101 ∧
    (getAllUsersController c4Store none (some "101")).2.users.length
      = 101 := by
  refine ⟨rfl, ?_, ?_⟩ <;> decide

/-- C4 (amended): a missing `page` defaults to 1 and a missing `limit`
defaults to 10, but no cap at 100 is enforced: the parsed `limit=101` is
used as-is and the request succeeds with status 200. -/
theorem c4_amended_pagination_defaults_uncapped (store : List UserRecord) :
    (getAllUsersController store none none).2.pagination.page = 1 ∧
    (getAllUsersController store none none).2.pagination.limit = 10 ∧
    (getAllUsersController store none none).1 = 200 ∧
    (getAllUsersController store none (some "101")).2.pagination.limit
      = 101 ∧
    (getAllUsersController store none (some "101")).1 = 200 := by
  refine ⟨rfl, rfl, rfl, ?_, rfl⟩
  show jsOrInt (jsParseIntOpt (some "101")) 10 = 101
  decide

/-- Witness for C4 (amended) at a concrete store. -/
theorem c4_amended_pagination_defaults_uncapped_witness :
    (getAllUsersController [c2Rec] none none).2.pagination.page = 1 ∧
    (getAllUsersController [c2Rec] none none).2.pagination.limit = 10 :=
  ⟨(c4_amended_pagination_defaults_uncapped [c2Rec]).1,
   (c4_amended_pagination_defaults_uncapped [c2Rec]).2.1⟩

/-! ## C6: idempotence of synchronization -/

/-- C6 (amended): N ≥ 1 successive synchronizations with identical claims
leave the stored record equal to the record after the first call on every
field except the two per-call timestamps — `lastLogin` and the
schema-managed `updatedAt`.  The first call runs at time `t`, the
remaining N-1 calls at the times in `ts`. -/
theorem c6_amended_sync_idempotent_mod_stamps (d : SyncData) (fid : String)
    (t : Nat) (ts : List Nat) (store : List UserRecord) :
    ∃ r1 rN,
      recordFor d.keycloakId (syncUserFromKeycloak t fid d store).1
        = some r1 ∧
      recordFor d.keycloakId
        (ts.foldl (fun s t' => (syncUserFromKeycloak t' fid d s).1)
          (syncUserFromKeycloak t fid d store).1) = some rN ∧
      rN.eqExceptStamps r1 := by
  rcases hf : store.find? (byKc d.keycloakId) with _ | r0
  · have h1 := recordFor_sync_absent t fid d store hf
    obtain ⟨r', h2, h3, _⟩ := sync_fold_keeps d fid ts
      (syncUserFromKeycloak t fid d store).1 (newRecord t fid d) h1
      (stableFor_newRecord t fid d)
    exact ⟨newRecord t fid d, r', h1, h2, h3⟩
  · have h1 := recordFor_sync_found t fid d store r0 hf
    obtain ⟨r', h2, h3, _⟩ := sync_fold_keeps d fid ts
      (syncUserFromKeycloak t fid d store).1 (syncSet t d r0) h1
      (stableFor_syncSet t d r0)
    exact ⟨syncSet t d r0, r', h1, h2, h3⟩

/-- The claims used in the C6 concrete runs. -/
def c6Sync : SyncData :=
  { keycloakId := "kc-c6"
  , email := some "c6@example.com"
  , username := some "c6user"
  , firstName := some "Ce"
  , lastName := some "Six"
  , emailVerified := true
  , enabled := some true }

/-- Counterexample for C6 as stated: after a second synchronization with
identical claims the stored record differs from the record after one call
not only in `lastLogin` but also in the schema-managed `updatedAt` stamp
(`timestamps: true` updates it on every `findOneAndUpdate`), so the
records are not equal "except for the last-login timestamp". -/
theorem c6_counterexample_updatedAt_changes :
    recordFor "kc-c6" (syncUserFromKeycloak 0 "f1" c6Sync []).1
      = some (newRecord 0 "f1" c6Sync) ∧
    recordFor "kc-c6"
      (syncUserFromKeycloak 1 "f2" c6Sync
        (syncUserFromKeycloak 0 "f1" c6Sync []).1).1
      = some (syncSet 1 c6Sync (newRecord 0 "f1" c6Sync)) ∧
    (syncSet 1 c6Sync (newRecord 0 "f1" c6Sync)).updatedAt = 1 ∧
    (newRecord 0 "f1" c6Sync).updatedAt = 0 ∧
    ¬ (syncSet 1 c6Sync (newRecord 0 "f1" c6Sync)).eqExceptLastLogin
        (newRecord 0 "f1" c6Sync) := by
  refine ⟨?_, ?_, ?_, ?_, ?_⟩ <;> decide

/-- Witness for C6 (amended) at a concrete run of two synchronizations. -/
theorem c6_amended_sync_idempotent_mod_stamps_witness :
    ∃ r1 rN,
      recordFor "kc-c6" (syncUserFromKeycloak 0 "f1" c6Sync []).1
        = some r1 ∧
      recordFor "kc-c6"
        ([1].foldl (fun s t' => (syncUserFromKeycloak t' "f1" c6Sync s).1)
          (syncUserFromKeycloak 0 "f1" c6Sync []).1) = some rN ∧
      rN.eqExceptStamps r1 :=
  c6_amended_sync_idempotent_mod_stamps c6Sync "f1" 0 [1] []

/-! ## C7: profile-update allow-list -/

/-- C7 (amended): when the authenticated user exists, the body passes the
`validateUpdateUser` chain and every allow-listed value casts to its
schema type, `PUT /me` succeeds with 200 and the stored record changes
only in allow-listed fields plus the schema-managed `updatedAt` stamp:
identity key, email, username, enabled, emailVerified, lastLogin and
createdAt are untouched, so every submitted field outside the allow-list
is ignored.  (A submitted `username` or `email` failing its format rule
is instead rejected with 400, and an allow-listed value of the wrong
shape makes the cast throw and the route return 500 — see the
counterexample.) -/
theorem c7_amended_allowlist_frame (isEmail : String → Bool) (now : Nat)
    (kc : String) (body : UpdateBody) (store : List UserRecord)
    (r r' : UserRecord)
    (hr : store.find? (byKc kc) = some r)
    (hv : validateUpdateUser isEmail body = true)
    (hcast : updSet now body r = .ok r') :
    (putMeRoute isEmail now kc body store).1 =
      { status := 200, success := true
      , message := "User profile updated successfully"
      , data := some r' } ∧
    recordFor kc (putMeRoute isEmail now kc body store).2 = some r' ∧
    r'.lockedFieldsEq r ∧
    r'.updatedAt = now ∧
    (∀ x ∈ store, byKc kc x = false →
      x ∈ (putMeRoute isEmail now kc body store).2) := by
  have hkr : byKc kc r = true := List.find?_some hr
  have hkr' : byKc kc r' = true := by
    unfold byKc at hkr ⊢
    rw [updSet_keycloakId now body r r' hcast]
    exact hkr
  have hpres : ∀ a, byKc kc a = true → byKc kc r' = true :=
    fun a _ => hkr'
  have hinner : updateUserProfileInner now kc body store =
      .ok (updateFirst (byKc kc) (fun _ => r') store, r') := by
    rw [updateUserProfileInner_found now kc body store r hr, hcast]
  have hroute : putMeRoute isEmail now kc body store =
      ({ status := 200, success := true
       , message := "User profile updated successfully"
       , data := some r' },
       updateFirst (byKc kc) (fun _ => r') store) := by
    unfold putMeRoute updateUserProfile
    rw [hv, hinner]
    rfl
  refine ⟨?_, ?_, updSet_locked now body r r' hcast,
    updSet_updatedAt now body r r' hcast, ?_⟩
  · rw [hroute]
  · rw [hroute]
    show (updateFirst (byKc kc) (fun _ => r') store).find? (byKc kc)
      = some r'
    rw [updateFirst_find (byKc kc) (fun _ => r') hpres store, hr]
    rfl
  · intro x hx hbx
    rw [hroute]
    exact mem_updateFirst_of_neg (byKc kc) (fun _ => r') hx hbx

/-- The stored record used in the C7 concrete runs. -/
def c7Rec : UserRecord :=
  { id := "cccccccccccccccccccccccc"
  , keycloakId := "kc-c7"
  , email := "c7@example.com"
  , username := "c7user"
  , firstName := none
  , lastName := none
  , enabled := true
  , emailVerified := false
  , profilePicture := none
  , phoneNumber := none
  , lastLogin := none
  , preferences := []
  , createdAt := 0
  , updatedAt := 0 }

/-- Counterexample for C7 as stated: `username` is outside the allow-list,
yet submitting `username: "ab"` (too short for the validator's 3..30 rule)
makes `PUT /me` fail with 400 instead of being silently ignored; a
successful update containing only an unknown field still changes the
stored record's `updatedAt`, a field outside the allow-list; and an
allow-listed `profilePicture` given an object passes the validator but
makes `findOneAndUpdate`'s cast throw, so the route returns 500 with the
store unchanged — the request does not always "still succeed". -/
theorem c7_counterexample_validator_rejects_username :
    (putMeRoute (fun _ => true) 3 "kc-c7"
      [("username", JsValue.str "ab")] [c7Rec]).1.status = 400 ∧
    (putMeRoute (fun _ => true) 3 "kc-c7"
      [("username", JsValue.str "ab")] [c7Rec]).2 = [c7Rec] ∧
    (putMeRoute (fun _ => true) 7 "kc-c7"
      [("unknownField", JsValue.str "x")] [c7Rec]).1.status = 200 ∧
    recordFor "kc-c7" (putMeRoute (fun _ => true) 7 "kc-c7"
      [("unknownField", JsValue.str "x")] [c7Rec]).2 =
      some { c7Rec with updatedAt := 7 } ∧
    ({ c7Rec with updatedAt := 7 } : UserRecord).updatedAt ≠
      c7Rec.updatedAt ∧
    validateUpdateUser (fun _ => true)
      [("profilePicture", JsValue.prefs [("a", "b")])] = true ∧
    (putMeRoute (fun _ => true) 5 "kc-c7"
      [("profilePicture", JsValue.prefs [("a", "b")])] [c7Rec]).1.status
      = 500 ∧
    (putMeRoute (fun _ => true) 5 "kc-c7"
      [("profilePicture", JsValue.prefs [("a", "b")])] [c7Rec]).1.message
      = "Failed to update user: Cast to string failed" ∧
    (putMeRoute (fun _ => true) 5 "kc-c7"
      [("profilePicture", JsValue.prefs [("a", "b")])] [c7Rec]).2
      = [c7Rec] := by
  refine ⟨?_, ?_, ?_, ?_, ?_, ?_, ?_, ?_, ?_⟩ <;> decide

/-- Witness for C7 (amended) at a concrete allow-listed update. -/
theorem c7_amended_allowlist_frame_witness :
    (putMeRoute (fun _ => true) 9 "kc-c7"
      [("firstName", JsValue.str "Neo")] [c7Rec]).1 =
      { status := 200, success := true
      , message := "User profile updated successfully"
      , data := some { c7Rec with firstName := some "Neo", updatedAt := 9 } } ∧
    ({ c7Rec with firstName := some "Neo", updatedAt := 9 } :
      UserRecord).lockedFieldsEq c7Rec :=
  ⟨(c7_amended_allowlist_frame (fun _ => true) 9 "kc-c7"
      [("firstName", JsValue.str "Neo")] [c7Rec] c7Rec
      { c7Rec with firstName := some "Neo", updatedAt := 9 }
      rfl rfl rfl).1,
   (c7_amended_allowlist_frame (fun _ => true) 9 "kc-c7"
      [("firstName", JsValue.str "Neo")] [c7Rec] c7Rec
      { c7Rec with firstName := some "Neo", updatedAt := 9 }
      rfl rfl rfl).2.2.1⟩

/-! ## C8: immutability of the identity key -/

/-- The store after `updateUserProfile` (unchanged when it errors). -/
def storeAfterUpdate (now : Nat) (kc : String) (body : UpdateBody)
    (store : List UserRecord) : List UserRecord :=
  match updateUserProfile now kc body store with
  | .ok (s', _) => s'
  | .error _ => store

/-- The store after `deleteUser` (unchanged when it errors). -/
def storeAfterDelete (now : Nat) (kc : String)
    (store : List UserRecord) : List UserRecord :=
  match deleteUser now kc store with
  | .ok (s', _) => s'
  | .error _ => store

/-- C8: no operation ever rewrites a stored record's identity key — the
key sequence of the store is preserved positionally by profile update and
soft delete, and by synchronization except for appending the new record
(whose key is the synchronized subject id, taken from the upsert filter);
moreover synchronization leaves every record with a different key
untouched, so it only ever writes the record whose key equals the subject
id. -/
theorem c8_keycloakId_immutable (store : List UserRecord) (d : SyncData)
    (now : Nat) (fid : String) (body : UpdateBody) (now2 now3 : Nat)
    (kc2 kc3 : String) :
    (storeKeys (syncUserFromKeycloak now fid d store).1 =
      if (store.find? (byKc d.keycloakId)).isSome then storeKeys store
      else storeKeys store ++ [d.keycloakId]) ∧
    (∀ x ∈ store, byKc d.keycloakId x = false →
      x ∈ (syncUserFromKeycloak now fid d store).1) ∧
    storeKeys (storeAfterUpdate now2 kc2 body store) = storeKeys store ∧
    storeKeys (storeAfterDelete now3 kc3 store) = storeKeys store := by
  refine ⟨?_, ?_, ?_, ?_⟩
  · rcases hf : store.find? (byKc d.keycloakId) with _ | r
    · unfold syncUserFromKeycloak storeKeys
      rw [hf]
      simp [newRecord]
    · unfold syncUserFromKeycloak storeKeys
      rw [hf]
      simp only [Option.isSome_some, if_true]
      exact map_updateFirst (byKc d.keycloakId) (syncSet now d)
        (·.keycloakId) (fun a _ => syncSet_keycloakId now d a) store
  · intro x hx hbx
    rcases hf : store.find? (byKc d.keycloakId) with _ | r
    · unfold syncUserFromKeycloak
      rw [hf]
      exact List.mem_append_left _ hx
    · unfold syncUserFromKeycloak
      rw [hf]
      exact mem_updateFirst_of_neg (byKc d.keycloakId) (syncSet now d) hx hbx
  · unfold storeAfterUpdate updateUserProfile
    rcases hf : store.find? (byKc kc2) with _ | r
    · rw [updateUserProfileInner_notFound now2 kc2 body store hf]
    · rcases hu : updSet now2 body r with _ | r'
      · rw [updateUserProfileInner_found now2 kc2 body store r hf, hu]
      · rw [updateUserProfileInner_found now2 kc2 body store r hf, hu]
        have hkr : r.keycloakId = kc2 := by
          simpa [byKc] using List.find?_some hf
        have hkr' : r'.keycloakId = kc2 := by
          rw [updSet_keycloakId now2 body r r' hu]
          exact hkr
        unfold storeKeys
        exact map_updateFirst (byKc kc2) (fun _ => r') (·.keycloakId)
          (fun a ha => by
            have haa : a.keycloakId = kc2 := by simpa [byKc] using ha
            show r'.keycloakId = a.keycloakId
            rw [hkr', haa]) store
  · unfold storeAfterDelete deleteUser deleteUserInner
    rcases hf : store.find? (byKc kc3) with _ | r
    · rfl
    · unfold storeKeys
      exact map_updateFirst (byKc kc3) (deleteSet now3)
        (·.keycloakId) (fun a _ => rfl) store

/-- Witness for C8 at a concrete store and operations. -/
theorem c8_keycloakId_immutable_witness :
    storeKeys (syncUserFromKeycloak 0 "f1" c6Sync [c7Rec]).1 =
      (if ([c7Rec].find? (byKc c6Sync.keycloakId)).isSome
       then storeKeys [c7Rec] else storeKeys [c7Rec] ++ [c6Sync.keycloakId]) ∧
    storeKeys (storeAfterDelete 2 "kc-c7" [c7Rec]) = storeKeys [c7Rec] :=
  ⟨(c8_keycloakId_immutable [c7Rec] c6Sync 0 "f1" [] 1 2 "kc-c7" "kc-c7").1,
   (c8_keycloakId_immutable [c7Rec] c6Sync 0 "f1" [] 1 2 "kc-c7"
     "kc-c7").2.2.2⟩

/-! ## C9: soft delete -/

/-- C9 (amended): deleting an existing record flips `enabled` to false and
— because of the schema's `timestamps: true` option — stamps `updatedAt`;
every other field is unchanged, the record stays in the store (same store
length, same position, other records untouched), and the controller
responds 200. -/
theorem c9_amended_soft_delete_frame (now : Nat) (kc : String)
    (store : List UserRecord) (r : UserRecord)
    (hr : store.find? (byKc kc) = some r) :
    ∃ store', deleteUser now kc store = .ok (store', deleteSet now r) ∧
      recordFor kc store' = some (deleteSet now r) ∧
      (deleteSet now r).enabled = false ∧
      (deleteSet now r).eqExceptEnabledStamp r ∧
      store'.length = store.length ∧
      (∀ x ∈ store, byKc kc x = false → x ∈ store') ∧
      (deleteCurrentUserController now kc store).1.status = 200 := by
  have hpres : ∀ a, byKc kc a = true → byKc kc (deleteSet now a) = true :=
    fun a ha => ha
  refine ⟨updateFirst (byKc kc) (deleteSet now) store, ?_, ?_, rfl, ?_,
    length_updateFirst (byKc kc) (deleteSet now) store, ?_, ?_⟩
  · unfold deleteUser deleteUserInner
    rw [hr]
  · show (updateFirst (byKc kc) (deleteSet now) store).find? (byKc kc)
      = some (deleteSet now r)
    rw [updateFirst_find (byKc kc) (deleteSet now) hpres store, hr]
    rfl
  · unfold UserRecord.eqExceptEnabledStamp
    exact ⟨rfl, rfl, rfl, rfl, rfl, rfl, rfl, rfl, rfl, rfl, rfl, rfl⟩
  · intro x hx hbx
    exact mem_updateFirst_of_neg (byKc kc) (deleteSet now) hx hbx
  · unfold deleteCurrentUserController deleteUser deleteUserInner
    rw [hr]

/-- The stored record used in the C9 concrete runs. -/
def c9Rec : UserRecord :=
  { id := "dddddddddddddddddddddddd"
  , keycloakId := "kc-c9"
  , email := "c9@example.com"
  , username := "c9user"
  , firstName := some "Nine"
  , lastName := none
  , enabled := true
  , emailVerified := true
  , profilePicture := none
  , phoneNumber := none
  , lastLogin := some 0
  , preferences := []
  , createdAt := 0
  , updatedAt := 0 }

/-- Counterexample for C9 as stated: the soft delete at time 5 flips
`enabled` but also changes `updatedAt` (0 to 5), so it does not leave
"no other field" unchanged; the record itself is retained. -/
theorem c9_counterexample_updatedAt_changes_on_delete :
    deleteUser 5 "kc-c9" [c9Rec] =
      .ok ([deleteSet 5 c9Rec], deleteSet 5 c9Rec) ∧
    (deleteSet 5 c9Rec).enabled = false ∧
    (deleteSet 5 c9Rec).updatedAt = 5 ∧
    c9Rec.updatedAt = 0 ∧
    ¬ (deleteSet 5 c9Rec).eqExceptEnabled c9Rec := by
  refine ⟨rfl, ?_, ?_, ?_, ?_⟩ <;> decide

/-- Witness for C9 (amended) at a concrete store. -/
theorem c9_amended_soft_delete_frame_witness :
    ∃ store', deleteUser 4 "kc-c9" [c9Rec] = .ok (store', deleteSet 4 c9Rec) ∧
      recordFor "kc-c9" store' = some (deleteSet 4 c9Rec) ∧
      (deleteSet 4 c9Rec).enabled = false ∧
      (deleteSet 4 c9Rec).eqExceptEnabledStamp c9Rec ∧
      store'.length = ([c9Rec] : List UserRecord).length ∧
      (∀ x ∈ ([c9Rec] : List UserRecord), byKc "kc-c9" x = false →
        x ∈ store') ∧
      (deleteCurrentUserController 4 "kc-c9" [c9Rec]).1.status = 200 :=
  c9_amended_soft_delete_frame 4 "kc-c9" [c9Rec] c9Rec rfl

/-! ## C10: GET /me re-enables a soft-deleted record -/

/-- C10: `getCurrentUser` always passes `enabled: true` into the
synchronization upsert, so for any stored record with `enabled = false`
the next authenticated `GET /me` for that subject rewrites it with
`enabled = true`: a soft delete is undone by the user's next profile
fetch. -/
theorem c10_me_reenables_disabled_user (now : Nat) (fid : String)
    (u : ReqUser) (store : List UserRecord) (r : UserRecord)
    (hr : store.find? (byKc u.keycloakId) = some r)
    (_hdis : r.enabled = false) :
    (getMeController now fid u store).1.status = 200 ∧
    recordFor u.keycloakId (getMeController now fid u store).2 =
      some (syncSet now (syncDataOfUser u) r) ∧
    (syncSet now (syncDataOfUser u) r).enabled = true := by
  refine ⟨rfl, ?_, rfl⟩
  show recordFor u.keycloakId
    (syncUserFromKeycloak now fid (syncDataOfUser u) store).1
    = some (syncSet now (syncDataOfUser u) r)
  exact recordFor_sync_found now fid (syncDataOfUser u) store r hr

/-- The identity context and disabled record of the C10 concrete run. -/
def c10User : ReqUser :=
  { keycloakId := "kc-c10"
  , email := some "ten@example.com"
  , username := some "tenuser"
  , firstName := none
  , lastName := none
  , emailVerified := true
  , roles := ["user"]
  , clientRoles := []
  , token := payloadW }

def c10Rec : UserRecord :=
  { id := "eeeeeeeeeeeeeeeeeeeeeeee"
  , keycloakId := "kc-c10"
  , email := "ten@example.com"
  , username := "tenuser"
  , firstName := none
  , lastName := none
  , enabled := false
  , emailVerified := true
  , profilePicture := none
  , phoneNumber := none
  , lastLogin := some 3
  , preferences := []
  , createdAt := 1
  , updatedAt := 3 }

/-- Witness for C10 at a concrete soft-deleted record. -/
theorem c10_me_reenables_disabled_user_witness :
    (getMeController 8 "f3" c10User [c10Rec]).1.status = 200 ∧
    recordFor "kc-c10" (getMeController 8 "f3" c10User [c10Rec]).2 =
      some (syncSet 8 (syncDataOfUser c10User) c10Rec) ∧
    (syncSet 8 (syncDataOfUser c10User) c10Rec).enabled = true :=
  c10_me_reenables_disabled_user 8 "f3" c10User [c10Rec] c10Rec rfl rfl
